import Mathlib

/-!
Shallow embedding of the `fimapi` crate (a typed client for the FimFiction
REST/JSON API), covering the parts the verification claims are about:

* `src/response/error.rs` — the numeric error-code taxonomy
  (`Malformed`, `Forbidden`, `NotFound`, `Unprocessable`, `ErrorKind`,
  `APIError`, `InvalidErrorCode` and their `TryFrom<u64>` decoders);
* `src/response/mod.rs` — the response-extraction pipeline
  (`ExtractErrExt::extract_error`, `extract_api_response`);
* `src/client.rs` — the `Client` wrapper (`with_client`, `from_token`,
  `bearer_token`);
* `src/auth/scopes.rs` — the `Scope` registry (`as_str`, `from_str`).

Rust `u64` values are embedded as `Nat`; all arithmetic used by the source
(`/`, `%` on `u64`) cannot overflow, so the embedding agrees with the Rust
semantics on every value below `2^64`.  Fallible Rust functions returning
`Result<T, E>` become `Except E T`.  Places where the Rust source calls
`.unwrap()` on a value that can be an error (and would therefore panic at
run time) are made explicit with `panicked` constructors in the result
types of the embedded functions.

`serde_json::Value` is embedded as the inductive `Json` below; numbers are
embedded as integers (`Int`), which covers every JSON value the claims
mention, with `as_u64` succeeding exactly on integers in `[0, 2^64)`.
-/

/-- JSON values, embedding `serde_json::Value`.  Numbers are embedded as
integers; `asU64` below mirrors `Value::as_u64` on them. -/
inductive Json where
  | null : Json
  | bool (b : Bool) : Json
  | num (n : Int) : Json
  | str (s : String) : Json
  | arr (xs : List Json) : Json
  | obj (kvs : List (String × Json)) : Json

/-- `Value::get(key)` on objects: the value at `key`, `none` otherwise. -/
def Json.getKey (v : Json) (key : String) : Option Json :=
  match v with
  | Json.obj kvs => (kvs.find? (fun kv => kv.fst = key)).map (·.snd)
  | _ => none

/-- `Value::get(index)` on arrays: element `index`, `none` otherwise. -/
def Json.getIdx (v : Json) (index : Nat) : Option Json :=
  match v with
  | Json.arr xs => xs.get? index
  | _ => none

/-- `Value::as_u64`: the number as an unsigned 64-bit value when it is a
non-negative integer below `2^64`. -/
def Json.asU64 (v : Json) : Option Nat :=
  match v with
  | Json.num n => if 0 ≤ n ∧ n < 2 ^ 64 then some n.toNat else none
  | _ => none

/-- `Value::as_str`: the string content when the value is a string. -/
def Json.asStr (v : Json) : Option String :=
  match v with
  | Json.str s => some s
  | _ => none

/-- `InvalidErrorCode` from `src/response/error.rs`: decode failure, either
an unrecognized numeric code (`BadCode`) or a value whose shape prevented
extracting a code at all (`Invalid`, carrying the offending JSON). -/
inductive InvalidErrorCode where
  | BadCode (code : Nat) : InvalidErrorCode
  | Invalid (v : Json) : InvalidErrorCode

/-- The 400-family subkinds (`Malformed` in `src/response/error.rs`),
including the hidden never-constructed placeholder variant. -/
inductive Malformed where
  | Body
  | Include
  | Nonexhaustive
deriving DecidableEq, Repr

/-- `impl TryFrom<u64> for Malformed`. -/
def Malformed.tryFrom (value : Nat) : Except InvalidErrorCode Malformed :=
  if value / 10 ≠ 400 then
    Except.error (InvalidErrorCode.BadCode value)
  else
    match value % 10 with
    | 1 => Except.ok Malformed.Body
    | 2 => Except.ok Malformed.Include
    | _ => Except.error (InvalidErrorCode.BadCode value)

/-- The 403-family subkinds (`Forbidden` in `src/response/error.rs`). -/
inductive Forbidden where
  | InvalidPermission
  | MissingScope
  | InvalidToken
  | Nonexhaustive
deriving DecidableEq, Repr

/-- `impl TryFrom<u64> for Forbidden`. -/
def Forbidden.tryFrom (value : Nat) : Except InvalidErrorCode Forbidden :=
  if value / 10 ≠ 403 then
    Except.error (InvalidErrorCode.BadCode value)
  else
    match value % 10 with
    | 0 => Except.ok Forbidden.InvalidPermission
    | 1 => Except.ok Forbidden.MissingScope
    | 2 => Except.ok Forbidden.InvalidToken
    | _ => Except.error (InvalidErrorCode.BadCode value)

/-- The 404-family subkinds (`NotFound` in `src/response/error.rs`). -/
inductive NotFound where
  | ResourceNotFound
  | InvalidApplication
  | EndpointMissing
  | Nonexhaustive
deriving DecidableEq, Repr

/-- `impl TryFrom<u64> for NotFound`. -/
def NotFound.tryFrom (value : Nat) : Except InvalidErrorCode NotFound :=
  if value / 10 ≠ 404 then
    Except.error (InvalidErrorCode.BadCode value)
  else
    match value % 10 with
    | 0 => Except.ok NotFound.ResourceNotFound
    | 1 => Except.ok NotFound.InvalidApplication
    | 2 => Except.ok NotFound.EndpointMissing
    | _ => Except.error (InvalidErrorCode.BadCode value)

/-- The 422-family subkinds (`Unprocessable` in `src/response/error.rs`). -/
inductive Unprocessable where
  | MissingParameter
  | InvalidArgument
  | IncorrectSecret
  | InvalidGrantType
  | MissingAuthHeader
  | InvalidAttributes
  | UnsupportedAttribute
  | InvalidFilter
  | InvalidPagination
  | MalformedAuthHeader
  | InvalidAttribute
  | InvalidSortField
  | MalformedSortField
  | Nonexhaustive
deriving DecidableEq, Repr

/-- The shared subindex table of `Unprocessable::try_from` (the single
`match idx` over 0–12 in the source); `value` is the original code, carried
into the `BadCode` failure on an unmapped subindex. -/
def Unprocessable.ofIdx (idx : Nat) (value : Nat) :
    Except InvalidErrorCode Unprocessable :=
  match idx with
  | 0 => Except.ok Unprocessable.MissingParameter
  | 1 => Except.ok Unprocessable.InvalidArgument
  | 2 => Except.ok Unprocessable.IncorrectSecret
  | 3 => Except.ok Unprocessable.InvalidGrantType
  | 4 => Except.ok Unprocessable.MissingAuthHeader
  | 5 => Except.ok Unprocessable.InvalidAttributes
  | 6 => Except.ok Unprocessable.UnsupportedAttribute
  | 7 => Except.ok Unprocessable.InvalidFilter
  | 8 => Except.ok Unprocessable.InvalidPagination
  | 9 => Except.ok Unprocessable.MalformedAuthHeader
  | 10 => Except.ok Unprocessable.InvalidAttribute
  | 11 => Except.ok Unprocessable.InvalidSortField
  | 12 => Except.ok Unprocessable.MalformedSortField
  | _ => Except.error (InvalidErrorCode.BadCode value)

/-- `impl TryFrom<u64> for Unprocessable`: the dual-encoding decoder.  The
source tests `value > 10000` (strictly), takes `value % 100` on the large
path after requiring `value / 100 == 422`, and `value % 10` on the small
path after requiring `value / 10 == 422`. -/
def Unprocessable.tryFrom (value : Nat) : Except InvalidErrorCode Unprocessable :=
  if value > 10000 then
    if value / 100 ≠ 422 then Except.error (InvalidErrorCode.BadCode value)
    else Unprocessable.ofIdx (value % 100) value
  else
    if value / 10 ≠ 422 then Except.error (InvalidErrorCode.BadCode value)
    else Unprocessable.ofIdx (value % 10) value

/-- `ErrorKind` from `src/response/error.rs`: the outer error-family sum. -/
inductive ErrorKind where
  | Malformed (m : Malformed) : ErrorKind
  | Forbidden (f : Forbidden) : ErrorKind
  | NotFound (n : NotFound) : ErrorKind
  | Unprocessable (u : Unprocessable) : ErrorKind
  | RateLimited : ErrorKind
  | Nonexhaustive : ErrorKind
deriving DecidableEq, Repr

/-- `impl TryFrom<u64> for ErrorKind`: the family dispatch.  The source
matches on `value / 10`; its catch-all arm returns `BadCode` carrying the
matched quotient `value / 10`, not the original value, while the guard arm
dispatches to `Unprocessable::try_from` on the original value when
`value / 10 == 422` or `value / 100 == 422`. -/
def ErrorKind.tryFrom (value : Nat) : Except InvalidErrorCode ErrorKind :=
  if value / 10 = 400 then (Malformed.tryFrom value).map ErrorKind.Malformed
  else if value / 10 = 403 then (Forbidden.tryFrom value).map ErrorKind.Forbidden
  else if value / 10 = 404 then (NotFound.tryFrom value).map ErrorKind.NotFound
  else if value / 10 = 429 then Except.ok ErrorKind.RateLimited
  else if value / 10 = 422 ∨ value / 10 / 10 = 422 then
    (Unprocessable.tryFrom value).map ErrorKind.Unprocessable
  else Except.error (InvalidErrorCode.BadCode (value / 10))

/-- `APIError` from `src/response/error.rs`: a decoded server error, the
kind plus opaque JSON metadata (`Null` when absent). -/
structure APIError where
  kind : ErrorKind
  meta : Json

/-- `impl TryFrom<serde_json::Value> for APIError`: read `code`, coerce to
u64, decode the kind, and keep `meta` (defaulting to JSON null). -/
def APIError.tryFrom (value : Json) : Except InvalidErrorCode APIError :=
  match value.getKey "code" with
  | none => Except.error (InvalidErrorCode.Invalid value)
  | some c =>
    match c.asU64 with
    | none => Except.error (InvalidErrorCode.Invalid value)
    | some code =>
      match ErrorKind.tryFrom code with
      | Except.error e => Except.error e
      | Except.ok kind =>
        Except.ok { kind := kind, meta := (value.getKey "meta").getD Json.null }

/-- `Error` from `src/response/error.rs`: the crate-level error wrapper,
either a transport (`reqwest`) error or a decoded `APIError`.  The reqwest
error payload is opaque to this embedding. -/
inductive Error where
  | Request : Error
  | API (e : APIError) : Error

/-- `ExtractErrExt::extract_error` from `src/response/mod.rs`: locate
`errors[0]` in the body (failing with `Invalid` carrying the whole body if
absent) and decode it through `APIError::try_from`. -/
def extract_error (v : Json) : Except InvalidErrorCode APIError :=
  match (v.getKey "errors").bind (fun e => e.getIdx 0) with
  | none => Except.error (InvalidErrorCode.Invalid v)
  | some e => APIError.tryFrom e

/-- An HTTP response as the extraction pipeline observes it: a status code
and the result of parsing the body as JSON (`none` when the body is not
valid JSON, in which case `s.json()` yields a `reqwest` error). -/
structure Response where
  status : Nat
  body : Option Json

/-- `StatusCode::is_client_error`: status in 400..=499. -/
def Response.is_client_error (r : Response) : Bool :=
  400 ≤ r.status ∧ r.status ≤ 499

/-- `StatusCode::is_server_error`: status in 500..=599. -/
def Response.is_server_error (r : Response) : Bool :=
  500 ≤ r.status ∧ r.status ≤ 599

/-- Outcome of `extract_api_response`: a decoded payload, a returned
`Error`, or a panic (`panicked` marks the `.unwrap()` call in the source
aborting on an `InvalidErrorCode`, carrying the unwrapped error). -/
inductive ExtractResult (T : Type) where
  | ok (value : T)
  | err (e : Error)
  | panicked (e : InvalidErrorCode)

/-- `extract_api_response` from `src/response/mod.rs`.  On 4xx it parses
the body as JSON (a parse failure is a reqwest error propagated by `?`),
runs `extract_error` and calls `.unwrap()` on the result — so a decode
failure of the error envelope is a panic, not a returned error.  On 5xx it
returns the status error from `error_for_status`.  Otherwise it decodes the
body as `T` (`decodeT` embeds `s.json::<T>()` after JSON parsing). -/
def extract_api_response {T : Type} (decodeT : Json → Option T)
    (r : Response) : ExtractResult T :=
  if r.is_client_error then
    match r.body with
    | none => ExtractResult.err Error.Request
    | some v =>
      match extract_error v with
      | Except.ok e => ExtractResult.err (Error.API e)
      | Except.error ic => ExtractResult.panicked ic
  else if r.is_server_error then
    ExtractResult.err Error.Request
  else
    match r.body with
    | none => ExtractResult.err Error.Request
    | some v =>
      match decodeT v with
      | none => ExtractResult.err Error.Request
      | some t => ExtractResult.ok t

/-- `Client` from `src/client.rs`: holds the bearer-token string.  The
owned `reqwest::Client` transport handle is opaque to this embedding and
omitted. -/
structure Client where
  bearer_token : String
deriving DecidableEq, Repr

/-- Outcome of `Client::with_client`: a constructed client, a returned
`Error`, or a panic (from an `.unwrap()` in the access-token extraction or
propagated from the extraction pipeline). -/
inductive ClientResult where
  | ok (c : Client)
  | err (e : Error)
  | panicked

/-- `Client::with_client` from `src/client.rs`, given the token-endpoint
response.  It runs `extract_api_response::<serde_json::Value>` (propagating
returned errors with `?`), then evaluates
`value.get("access_token").unwrap().as_str().unwrap()` — each `unwrap`
panics when the field is absent or not a string — and stores
`format!("Bearer {}", token)`. -/
def Client.with_client (r : Response) : ClientResult :=
  match extract_api_response some r with
  | ExtractResult.ok value =>
    match value.getKey "access_token" with
    | none => ClientResult.panicked
    | some tok =>
      match tok.asStr with
      | none => ClientResult.panicked
      | some t => ClientResult.ok { bearer_token := "Bearer " ++ t }
  | ExtractResult.err e => ClientResult.err e
  | ExtractResult.panicked _ => ClientResult.panicked

/-- `Client::from_token` from `src/client.rs`: stores the given string as
the bearer token verbatim, performing no validation and adding no prefix. -/
def Client.from_token (tok : String) : Client :=
  { bearer_token := tok }

/-- `Scope` from `src/auth/scopes.rs`: the 15 OAuth scopes. -/
inductive Scope where
  | WriteBlogPosts
  | ReadBookshelves
  | WriteBookshelves
  | ReadBookshelfItems
  | WriteBookshelfItems
  | ReadPms
  | WritePms
  | WriteFollowers
  | ReadStories
  | WriteStories
  | WriteComments
  | ReadUser
  | WriteUser
  | ReadChapterRead
  | WriteChapterRead
deriving DecidableEq, Repr

/-- `Scope::as_str`: the wire string of each scope.  Note the source maps
`ReadStories` to the string of the read-followers scope. -/
def Scope.as_str (s : Scope) : String :=
  match s with
  | Scope.WriteBlogPosts => "write_blog_posts"
  | Scope.ReadBookshelves => "read_bookshelves"
  | Scope.WriteBookshelves => "write_bookshelves"
  | Scope.ReadBookshelfItems => "read_bookshelf_items"
  | Scope.WriteBookshelfItems => "write_bookshelf_items"
  | Scope.ReadPms => "read_pms"
  | Scope.WritePms => "write_pms"
  | Scope.WriteFollowers => "write_followers"
  | Scope.ReadStories => "read_followers"
  | Scope.WriteStories => "write_stories"
  | Scope.WriteComments => "write_comments"
  | Scope.ReadUser => "read_user"
  | Scope.WriteUser => "write_user"
  | Scope.ReadChapterRead => "read_chapter_read"
  | Scope.WriteChapterRead => "write_chapter_read"

/-- `ParseScopeError` from `src/auth/scopes.rs`: carries the string that
failed to parse. -/
structure ParseScopeError where
  val : String
deriving DecidableEq, Repr

/-- `impl FromStr for Scope`: the Rust `match` on the input string.  Note
that `"read_followers"` parses to `ReadStories` and that no arm accepts
`"read_stories"`. -/
def Scope.from_str (s : String) : Except ParseScopeError Scope :=
  match s with
  | "write_blog_posts" => Except.ok Scope.WriteBlogPosts
  | "read_bookshelves" => Except.ok Scope.ReadBookshelves
  | "write_bookshelves" => Except.ok Scope.WriteBookshelves
  | "read_bookshelf_items" => Except.ok Scope.ReadBookshelfItems
  | "write_bookshelf_items" => Except.ok Scope.WriteBookshelfItems
  | "read_pms" => Except.ok Scope.ReadPms
  | "write_pms" => Except.ok Scope.WritePms
  | "write_followers" => Except.ok Scope.WriteFollowers
  | "read_followers" => Except.ok Scope.ReadStories
  | "write_stories" => Except.ok Scope.WriteStories
  | "write_comments" => Except.ok Scope.WriteComments
  | "read_user" => Except.ok Scope.ReadUser
  | "write_user" => Except.ok Scope.WriteUser
  | "read_chapter_read" => Except.ok Scope.ReadChapterRead
  | "write_chapter_read" => Except.ok Scope.WriteChapterRead
  | _ => Except.error { val := s }

/-- The JSON error envelope of spec §8\'s 403 example: an `errors` array
whose first element has `code` 4311 and `meta` an object mapping `"x"` to 1. -/
def envelope_code_4311 : Json :=
  Json.obj [("errors", Json.arr [Json.obj
    [("code", Json.num 4311), ("meta", Json.obj [("x", Json.num 1)])]])]

/-- The same envelope with the code the source actually assigns to
`Forbidden::InvalidToken`, namely 4032 = 403*10 + 2. -/
def envelope_code_4032 : Json :=
  Json.obj [("errors", Json.arr [Json.obj
    [("code", Json.num 4032), ("meta", Json.obj [("x", Json.num 1)])]])]

/-- An envelope whose first error carries the unrecognized code 9999. -/
def envelope_code_9999 : Json :=
  Json.obj [("errors", Json.arr [Json.obj [("code", Json.num 9999)]])]

/-! ### Helper lemmas -/

theorem except_map_ok {ε α β : Type} {f : α → β} {e : Except ε α} {b : β}
    (h : e.map f = Except.ok b) : ∃ a, e = Except.ok a ∧ f a = b := by
  cases e with
  | error er => exact Except.noConfusion h
  | ok a => exact ⟨a, rfl, Except.ok.inj h⟩

theorem Unprocessable.ofIdx_ok (idx v : Nat) (h : idx ≤ 12) :
    ∃ u, Unprocessable.ofIdx idx v = Except.ok u := by
  interval_cases idx <;> exact ⟨_, rfl⟩

theorem Unprocessable.ofIdx_err (idx v : Nat) (h : 12 < idx) :
    Unprocessable.ofIdx idx v = Except.error (InvalidErrorCode.BadCode v) := by
  unfold Unprocessable.ofIdx
  split <;> first | rfl | (exfalso; omega)

theorem Unprocessable.tryFrom_ok_inv (c : Nat) (u : Unprocessable)
    (h : Unprocessable.tryFrom c = Except.ok u) :
    (c ≤ 10000 ∧ c / 10 = 422) ∨ (10000 < c ∧ c / 100 = 422 ∧ c % 100 ≤ 12) := by
  unfold Unprocessable.tryFrom at h
  by_cases h1 : c > 10000
  · rw [if_pos h1] at h
    by_cases h2 : c / 100 = 422
    · rw [if_neg (not_not_intro h2)] at h
      right
      refine ⟨h1, h2, ?_⟩
      by_contra hgt
      rw [Unprocessable.ofIdx_err _ _ (by omega)] at h
      exact Except.noConfusion h
    · rw [if_pos h2] at h
      exact Except.noConfusion h
  · rw [if_neg h1] at h
    by_cases h3 : c / 10 = 422
    · rw [if_neg (not_not_intro h3)] at h
      left; exact ⟨by omega, h3⟩
    · rw [if_pos h3] at h
      exact Except.noConfusion h

theorem Unprocessable.tryFrom_ok_small (c : Nat) (h : c / 10 = 422) :
    ∃ u, Unprocessable.tryFrom c = Except.ok u := by
  unfold Unprocessable.tryFrom
  rw [if_neg (by omega : ¬ c > 10000), if_neg (not_not_intro h)]
  exact Unprocessable.ofIdx_ok _ _ (by omega)

theorem Unprocessable.tryFrom_ok_large (c : Nat) (h : c / 100 = 422)
    (h2 : c % 100 ≤ 12) : ∃ u, Unprocessable.tryFrom c = Except.ok u := by
  unfold Unprocessable.tryFrom
  rw [if_pos (by omega : c > 10000), if_neg (not_not_intro h)]
  exact Unprocessable.ofIdx_ok _ _ h2

theorem unprocessable_tryFrom_cases (c : Nat) :
    (∃ u, Unprocessable.tryFrom c = Except.ok u) ∨
      Unprocessable.tryFrom c = Except.error (InvalidErrorCode.BadCode c) := by
  unfold Unprocessable.tryFrom
  by_cases h1 : c > 10000
  · rw [if_pos h1]
    by_cases h2 : c / 100 = 422
    · rw [if_neg (not_not_intro h2)]
      by_cases h3 : c % 100 ≤ 12
      · exact Or.inl (Unprocessable.ofIdx_ok _ _ h3)
      · exact Or.inr (Unprocessable.ofIdx_err _ _ (by omega))
    · rw [if_pos h2]; exact Or.inr rfl
  · rw [if_neg h1]
    by_cases h3 : c / 10 = 422
    · rw [if_neg (not_not_intro h3)]
      exact Or.inl (Unprocessable.ofIdx_ok _ _ (by omega))
    · rw [if_pos h3]; exact Or.inr rfl

theorem malformed_tryFrom_cases (c : Nat) :
    (∃ m, Malformed.tryFrom c = Except.ok m) ∨
      Malformed.tryFrom c = Except.error (InvalidErrorCode.BadCode c) := by
  unfold Malformed.tryFrom
  split_ifs with h
  · exact Or.inr rfl
  · split <;> first | exact Or.inl ⟨_, rfl⟩ | exact Or.inr rfl

theorem forbidden_tryFrom_cases (c : Nat) :
    (∃ f, Forbidden.tryFrom c = Except.ok f) ∨
      Forbidden.tryFrom c = Except.error (InvalidErrorCode.BadCode c) := by
  unfold Forbidden.tryFrom
  split_ifs with h
  · exact Or.inr rfl
  · split <;> first | exact Or.inl ⟨_, rfl⟩ | exact Or.inr rfl

theorem notFound_tryFrom_cases (c : Nat) :
    (∃ n, NotFound.tryFrom c = Except.ok n) ∨
      NotFound.tryFrom c = Except.error (InvalidErrorCode.BadCode c) := by
  unfold NotFound.tryFrom
  split_ifs with h
  · exact Or.inr rfl
  · split <;> first | exact Or.inl ⟨_, rfl⟩ | exact Or.inr rfl

theorem Forbidden.tryFrom_err_high (c : Nat) (h1 : c / 10 = 403)
    (h2 : 3 ≤ c % 10) :
    Forbidden.tryFrom c = Except.error (InvalidErrorCode.BadCode c) := by
  unfold Forbidden.tryFrom
  rw [if_neg (not_not_intro h1)]
  split <;> first | rfl | (exfalso; omega)

theorem ErrorKind.tryFrom_eq_400 (c : Nat) (h : c / 10 = 400) :
    ErrorKind.tryFrom c = (Malformed.tryFrom c).map ErrorKind.Malformed := by
  unfold ErrorKind.tryFrom
  rw [if_pos h]

theorem ErrorKind.tryFrom_eq_403 (c : Nat) (h : c / 10 = 403) :
    ErrorKind.tryFrom c = (Forbidden.tryFrom c).map ErrorKind.Forbidden := by
  unfold ErrorKind.tryFrom
  rw [if_neg (by omega), if_pos h]

theorem ErrorKind.tryFrom_eq_404 (c : Nat) (h : c / 10 = 404) :
    ErrorKind.tryFrom c = (NotFound.tryFrom c).map ErrorKind.NotFound := by
  unfold ErrorKind.tryFrom
  rw [if_neg (by omega), if_neg (by omega), if_pos h]

theorem ErrorKind.tryFrom_eq_429 (c : Nat) (h : c / 10 = 429) :
    ErrorKind.tryFrom c = Except.ok ErrorKind.RateLimited := by
  unfold ErrorKind.tryFrom
  rw [if_neg (by omega), if_neg (by omega), if_neg (by omega), if_pos h]

theorem ErrorKind.tryFrom_eq_unproc (c : Nat)
    (h : c / 10 = 422 ∨ c / 100 = 422) :
    ErrorKind.tryFrom c = (Unprocessable.tryFrom c).map ErrorKind.Unprocessable := by
  unfold ErrorKind.tryFrom
  rw [if_neg (by omega), if_neg (by omega), if_neg (by omega), if_neg (by omega),
    if_pos (by omega : c / 10 = 422 ∨ c / 10 / 10 = 422)]

theorem ErrorKind.tryFrom_eq_badFamily (c : Nat)
    (h : ¬(c / 10 = 400 ∨ c / 10 = 403 ∨ c / 10 = 404 ∨ c / 10 = 429 ∨
        c / 10 = 422 ∨ c / 100 = 422)) :
    ErrorKind.tryFrom c = Except.error (InvalidErrorCode.BadCode (c / 10)) := by
  unfold ErrorKind.tryFrom
  rw [if_neg (by omega), if_neg (by omega), if_neg (by omega), if_neg (by omega),
    if_neg (by omega : ¬(c / 10 = 422 ∨ c / 10 / 10 = 422))]

theorem errorKind_tryFrom_total (c : Nat) :
    (∃ k, ErrorKind.tryFrom c = Except.ok k) ∨
      ∃ b, ErrorKind.tryFrom c = Except.error (InvalidErrorCode.BadCode b) := by
  by_cases h1 : c / 10 = 400
  · rw [ErrorKind.tryFrom_eq_400 c h1]
    rcases malformed_tryFrom_cases c with ⟨m, hm⟩ | hm
    · exact Or.inl ⟨ErrorKind.Malformed m, by rw [hm]; rfl⟩
    · exact Or.inr ⟨c, by rw [hm]; rfl⟩
  by_cases h2 : c / 10 = 403
  · rw [ErrorKind.tryFrom_eq_403 c h2]
    rcases forbidden_tryFrom_cases c with ⟨f, hf⟩ | hf
    · exact Or.inl ⟨ErrorKind.Forbidden f, by rw [hf]; rfl⟩
    · exact Or.inr ⟨c, by rw [hf]; rfl⟩
  by_cases h3 : c / 10 = 404
  · rw [ErrorKind.tryFrom_eq_404 c h3]
    rcases notFound_tryFrom_cases c with ⟨n, hn⟩ | hn
    · exact Or.inl ⟨ErrorKind.NotFound n, by rw [hn]; rfl⟩
    · exact Or.inr ⟨c, by rw [hn]; rfl⟩
  by_cases h4 : c / 10 = 429
  · exact Or.inl ⟨ErrorKind.RateLimited, ErrorKind.tryFrom_eq_429 c h4⟩
  by_cases h5 : c / 10 = 422 ∨ c / 100 = 422
  · rw [ErrorKind.tryFrom_eq_unproc c h5]
    rcases unprocessable_tryFrom_cases c with ⟨u, hu⟩ | hu
    · exact Or.inl ⟨ErrorKind.Unprocessable u, by rw [hu]; rfl⟩
    · exact Or.inr ⟨c, by rw [hu]; rfl⟩
  · exact Or.inr ⟨c / 10, ErrorKind.tryFrom_eq_badFamily c (by omega)⟩

/-- Round-trip of the scope registry: parsing the wire string of any scope
yields that scope back. -/
theorem scope_roundtrip (s : Scope) :
    Scope.from_str (Scope.as_str s) = Except.ok s := by
  cases s <;> rfl

/-- Whenever `from_str` succeeds, `as_str` of the result is the input:
`as_str` is a left inverse of `from_str` on its success domain. -/
theorem scope_from_str_inv (str : String) (v : Scope)
    (h : Scope.from_str str = Except.ok v) : Scope.as_str v = str := by
  unfold Scope.from_str at h
  split at h
  all_goals first
    | exact Except.noConfusion h
    | (injection h with hv; subst hv; rfl)

/-! ### Claim theorems -/

/-- C1: the claim says the extraction pipeline never panics on a 4xx body
lacking the error-envelope shape and instead yields the `InvalidErrorCode`.
The inner `extract_error` does yield `Invalid` carrying the malformed body,
but `extract_api_response` calls `.unwrap()` on that result, so the
pipeline panics instead of surfacing it: on a 400 response with body `{}`
the outcome is a panic carrying `Invalid {}`, and on a 400 response whose
first error has the unrecognized code 9999 the outcome is a panic carrying
`BadCode 999`. -/
theorem C1_extract_pipeline_unwrap_panics :
    extract_error (Json.obj []) =
      Except.error (InvalidErrorCode.Invalid (Json.obj [])) ∧
    extract_api_response (T := Json) some
        { status := 400, body := some (Json.obj []) } =
      ExtractResult.panicked (InvalidErrorCode.Invalid (Json.obj [])) ∧
    extract_api_response (T := Json) some
        { status := 400, body := some envelope_code_9999 } =
      ExtractResult.panicked (InvalidErrorCode.BadCode 999) :=
  ⟨rfl, rfl, rfl⟩

/-- C2: decoding yields an Unprocessable (422-family) subkind if and only
if the code is below 10000 with quotient-by-10 equal to 422 (subindex 0–9),
or at least 10000 with quotient-by-100 equal to 422 and subindex 0–12; and
4220 and 42200 both decode to `MissingParameter` while 9999 fails. -/
theorem C2_unprocessable_decode_iff (c : Nat) (hc : c < 2 ^ 64) :
    ((∃ u, ErrorKind.tryFrom c = Except.ok (ErrorKind.Unprocessable u)) ↔
      ((c < 10000 ∧ c / 10 = 422 ∧ c % 10 ≤ 9) ∨
        (10000 ≤ c ∧ c / 100 = 422 ∧ c % 100 ≤ 12))) ∧
    ErrorKind.tryFrom 4220 =
      Except.ok (ErrorKind.Unprocessable Unprocessable.MissingParameter) ∧
    ErrorKind.tryFrom 42200 =
      Except.ok (ErrorKind.Unprocessable Unprocessable.MissingParameter) ∧
    ErrorKind.tryFrom 9999 = Except.error (InvalidErrorCode.BadCode 999) := by
  refine ⟨⟨?_, ?_⟩, rfl, rfl, rfl⟩
  · rintro ⟨u, hu⟩
    by_cases h1 : c / 10 = 400
    · rw [ErrorKind.tryFrom_eq_400 c h1] at hu
      obtain ⟨m, _, heq⟩ := except_map_ok hu
      simp at heq
    by_cases h2 : c / 10 = 403
    · rw [ErrorKind.tryFrom_eq_403 c h2] at hu
      obtain ⟨f, _, heq⟩ := except_map_ok hu
      simp at heq
    by_cases h3 : c / 10 = 404
    · rw [ErrorKind.tryFrom_eq_404 c h3] at hu
      obtain ⟨n, _, heq⟩ := except_map_ok hu
      simp at heq
    by_cases h4 : c / 10 = 429
    · rw [ErrorKind.tryFrom_eq_429 c h4] at hu
      exact ErrorKind.noConfusion (Except.ok.inj hu)
    by_cases h5 : c / 10 = 422 ∨ c / 100 = 422
    · rw [ErrorKind.tryFrom_eq_unproc c h5] at hu
      obtain ⟨u2, hu2, _⟩ := except_map_ok hu
      have := Unprocessable.tryFrom_ok_inv c u2 hu2
      omega
    · rw [ErrorKind.tryFrom_eq_badFamily c (by omega)] at hu
      exact Except.noConfusion hu
  · intro h
    rcases h with ⟨hlt, hdiv, hmod⟩ | ⟨hge, hdiv, hmod⟩
    · obtain ⟨u, hu⟩ := Unprocessable.tryFrom_ok_small c hdiv
      exact ⟨u, by rw [ErrorKind.tryFrom_eq_unproc c (Or.inl hdiv), hu]; rfl⟩
    · obtain ⟨u, hu⟩ := Unprocessable.tryFrom_ok_large c hdiv hmod
      exact ⟨u, by rw [ErrorKind.tryFrom_eq_unproc c (Or.inr hdiv), hu]; rfl⟩

/-- C2 witness: the characterization instantiated at code 4220. -/
theorem C2_unprocessable_decode_iff_witness :
    (∃ u, ErrorKind.tryFrom 4220 = Except.ok (ErrorKind.Unprocessable u)) ↔
      ((4220 < 10000 ∧ 4220 / 10 = 422 ∧ 4220 % 10 ≤ 9) ∨
        (10000 ≤ 4220 ∧ 4220 / 100 = 422 ∧ 4220 % 100 ≤ 12)) :=
  (C2_unprocessable_decode_iff 4220 (by norm_num)).1

/-- C3: `ErrorKind::try_from` is total on every u64 input — the result is
always either a decoded kind or a `BadCode` decode-failure value, never a
panic — including 0, `u64::MAX`, the family-boundary codes 4000, 4221,
42200 and 10000, codes one above the valid subindex ranges (4003, 4033,
4043, 42213) and the unrelated 500-series (5000). -/
theorem C3_decode_total_shape (c : Nat) (hc : c < 2 ^ 64) :
    ((∃ k, ErrorKind.tryFrom c = Except.ok k) ∨
      ∃ b, ErrorKind.tryFrom c = Except.error (InvalidErrorCode.BadCode b)) ∧
    ErrorKind.tryFrom 0 = Except.error (InvalidErrorCode.BadCode 0) ∧
    ErrorKind.tryFrom (2 ^ 64 - 1) =
      Except.error (InvalidErrorCode.BadCode ((2 ^ 64 - 1) / 10)) ∧
    ErrorKind.tryFrom 4000 = Except.error (InvalidErrorCode.BadCode 4000) ∧
    ErrorKind.tryFrom 4221 =
      Except.ok (ErrorKind.Unprocessable Unprocessable.InvalidArgument) ∧
    ErrorKind.tryFrom 42200 =
      Except.ok (ErrorKind.Unprocessable Unprocessable.MissingParameter) ∧
    ErrorKind.tryFrom 10000 = Except.error (InvalidErrorCode.BadCode 1000) ∧
    ErrorKind.tryFrom 4003 = Except.error (InvalidErrorCode.BadCode 4003) ∧
    ErrorKind.tryFrom 4033 = Except.error (InvalidErrorCode.BadCode 4033) ∧
    ErrorKind.tryFrom 4043 = Except.error (InvalidErrorCode.BadCode 4043) ∧
    ErrorKind.tryFrom 42213 = Except.error (InvalidErrorCode.BadCode 42213) ∧
    ErrorKind.tryFrom 5000 = Except.error (InvalidErrorCode.BadCode 500) :=
  ⟨errorKind_tryFrom_total c, rfl, rfl, rfl, rfl, rfl, rfl, rfl, rfl, rfl,
    rfl, rfl⟩

/-- C3 witness: the totality disjunction instantiated at code 0. -/
theorem C3_decode_total_shape_witness :
    (∃ k, ErrorKind.tryFrom 0 = Except.ok k) ∨
      ∃ b, ErrorKind.tryFrom 0 = Except.error (InvalidErrorCode.BadCode b) :=
  (C3_decode_total_shape 0 (by norm_num)).1

/-- C4: the claim says the OAuth token-exchange path fails with a
structured protocol-violation error when the decoded JSON lacks an
`access_token` string, and does not unwrap or crash.  The source instead
evaluates `value.get("access_token").unwrap().as_str().unwrap()`, so on a
200 response whose body is `{}` (field absent) or carries a non-string
`access_token`, `Client::with_client` panics rather than returning an
error. -/
theorem C4_with_client_unwrap_panics :
    Client.with_client { status := 200, body := some (Json.obj []) } =
      ClientResult.panicked ∧
    Client.with_client
        { status := 200,
          body := some (Json.obj [("access_token", Json.num 5)]) } =
      ClientResult.panicked :=
  ⟨rfl, rfl⟩

/-- C5: for every Scope variant, parsing the canonical wire string back
yields the same variant: `from_str (as_str s) = Ok s` for all 15 variants
(including `ReadStories`, whose wire string is `"read_followers"`). -/
theorem C5_scope_roundtrip (s : Scope) :
    Scope.from_str (Scope.as_str s) = Except.ok s :=
  scope_roundtrip s

/-- C6 counterexample: the claim says the wire string `"read_stories"` and
the `"read_followers"` string both parse to `ReadStories`, breaking
injectivity.  In the source no arm accepts `"read_stories"`: parsing it
fails with a `ParseScopeError`, so it does not parse to `ReadStories` (or
to anything). -/
theorem C6_read_stories_not_parsed :
    Scope.from_str "read_stories" =
      Except.error { val := "read_stories" } ∧
    Scope.from_str "read_stories" ≠ Except.ok Scope.ReadStories :=
  ⟨rfl, fun h => Except.noConfusion h⟩

/-- C6 (amended): the scope→string and string→scope mappings are exact
inverses for all 15 variants — `as_str` is injective and `from_str` is its
two-sided inverse on the success domain — so injectivity is not broken for
any variant.  The actual defect is a misnaming: `ReadStories` carries the
wire string `"read_followers"`, and `"read_stories"` parses to no
variant. -/
theorem C6_scope_maps_exact_inverses :
    (∀ s : Scope, Scope.from_str (Scope.as_str s) = Except.ok s) ∧
    (∀ s t : Scope, Scope.as_str s = Scope.as_str t → s = t) ∧
    (∀ str v, Scope.from_str str = Except.ok v → Scope.as_str v = str) ∧
    Scope.as_str Scope.ReadStories = "read_followers" ∧
    Scope.from_str "read_stories" = Except.error { val := "read_stories" } := by
  refine ⟨scope_roundtrip, ?_, scope_from_str_inv, rfl, rfl⟩
  intro s t h
  have h1 := scope_roundtrip s
  rw [h, scope_roundtrip t] at h1
  exact (Except.ok.inj h1).symm

/-- C6 witness: the inverse properties applied at concrete inputs. -/
theorem C6_scope_maps_exact_inverses_witness :
    Scope.ReadUser = Scope.ReadUser ∧ Scope.as_str Scope.ReadUser = "read_user" :=
  ⟨C6_scope_maps_exact_inverses.2.1 Scope.ReadUser Scope.ReadUser rfl,
    C6_scope_maps_exact_inverses.2.2.1 "read_user" Scope.ReadUser rfl⟩

/-- C7 counterexample: the claim says a 403 response whose first error has
code 4311 extracts to an `APIError` with kind `Forbidden`/`InvalidToken`.
In the source 4311 is not a valid code at all: `4311 / 10 = 431` matches no
family, so `extract_error` fails with `BadCode 431` and the pipeline's
`.unwrap()` turns that into a panic — no `APIError` is produced. -/
theorem C7_code_4311_fails :
    extract_error envelope_code_4311 =
      Except.error (InvalidErrorCode.BadCode 431) ∧
    extract_api_response (T := Json) some
        { status := 403, body := some envelope_code_4311 } =
      ExtractResult.panicked (InvalidErrorCode.BadCode 431) :=
  ⟨rfl, rfl⟩

/-- C7 (amended): with the code the source actually assigns to
`Forbidden::InvalidToken` — 4032 = 403*10 + 2 — a 403 response with that
envelope extracts to an `APIError` whose kind is `Forbidden InvalidToken`
and whose meta is the object mapping `"x"` to 1. -/
theorem C7_code_4032_forbidden_invalid_token :
    extract_api_response (T := Json) some
        { status := 403, body := some envelope_code_4032 } =
      ExtractResult.err (Error.API
        { kind := ErrorKind.Forbidden Forbidden.InvalidToken,
          meta := Json.obj [("x", Json.num 1)] }) ∧
    extract_error envelope_code_4032 =
      Except.ok
        { kind := ErrorKind.Forbidden Forbidden.InvalidToken,
          meta := Json.obj [("x", Json.num 1)] } :=
  ⟨rfl, rfl⟩

/-- C8: decoding returns `RateLimited` exactly when `c / 10 = 429` (codes
4290–4299), with no subkind check on the remainder, and for no other
code. -/
theorem C8_rate_limited_iff (c : Nat) (hc : c < 2 ^ 64) :
    ErrorKind.tryFrom c = Except.ok ErrorKind.RateLimited ↔ c / 10 = 429 := by
  constructor
  · intro h
    by_cases h1 : c / 10 = 400
    · rw [ErrorKind.tryFrom_eq_400 c h1] at h
      obtain ⟨m, _, heq⟩ := except_map_ok h
      simp at heq
    by_cases h2 : c / 10 = 403
    · rw [ErrorKind.tryFrom_eq_403 c h2] at h
      obtain ⟨f, _, heq⟩ := except_map_ok h
      simp at heq
    by_cases h3 : c / 10 = 404
    · rw [ErrorKind.tryFrom_eq_404 c h3] at h
      obtain ⟨n, _, heq⟩ := except_map_ok h
      simp at heq
    by_cases h4 : c / 10 = 429
    · exact h4
    by_cases h5 : c / 10 = 422 ∨ c / 100 = 422
    · rw [ErrorKind.tryFrom_eq_unproc c h5] at h
      obtain ⟨u, _, heq⟩ := except_map_ok h
      simp at heq
    · rw [ErrorKind.tryFrom_eq_badFamily c (by omega)] at h
      exact Except.noConfusion h
  · exact ErrorKind.tryFrom_eq_429 c

/-- C8 witness: the characterization instantiated at code 4295. -/
theorem C8_rate_limited_iff_witness :
    ErrorKind.tryFrom 4295 = Except.ok ErrorKind.RateLimited ↔
      4295 / 10 = 429 :=
  C8_rate_limited_iff 4295 (by norm_num)

/-- C9 counterexample: the claim says `from_token` likewise produces a
Client whose stored token has the `"Bearer <token>"` format.  It stores the
argument verbatim: `from_token "abc123"` holds exactly `"abc123"`, which is
not of the form `"Bearer " ++ t` for any `t` (its length is 6, shorter than
the prefix alone). -/
theorem C9_from_token_verbatim :
    (Client.from_token "abc123").bearer_token = "abc123" ∧
    ∀ t : String, (Client.from_token "abc123").bearer_token ≠ "Bearer " ++ t := by
  refine ⟨rfl, fun t h => ?_⟩
  have hl := congrArg String.length h
  have h6 : (Client.from_token "abc123").bearer_token.length = 6 := rfl
  have h7 : ("Bearer " : String).length = 7 := rfl
  simp only [String.length_append] at hl
  omega

/-- C9 (amended): the OAuth path given a 200 response with an
`access_token` of `"abc123"` yields the bearer-token string
`"Bearer abc123"`; `from_token` stores the caller's string verbatim with no
prefixing or validation, so a `from_token` Client holds the
`"Bearer <token>"` format only when the caller supplies it. -/
theorem C9_bearer_token_formats :
    Client.with_client
        { status := 200,
          body := some (Json.obj [("access_token", Json.str "abc123")]) } =
      ClientResult.ok { bearer_token := "Bearer abc123" } ∧
    ∀ t : String, (Client.from_token t).bearer_token = t :=
  ⟨rfl, fun _ => rfl⟩

/-- C10: when family dispatch fails (the quotient `c / 10` matches no known
family and `c / 100` is not 422), the `BadCode` failure carries the
quotient `c / 10` — for 5000 that is 500 — whereas an unmapped subindex
inside a recognized family (say 403 with subindex at least 3, like 4035)
yields `BadCode` carrying the original code. -/
theorem C10_badcode_payload (c : Nat) (hc : c < 2 ^ 64) :
    (¬(c / 10 = 400 ∨ c / 10 = 403 ∨ c / 10 = 404 ∨ c / 10 = 429 ∨
        c / 10 = 422 ∨ c / 100 = 422) →
      ErrorKind.tryFrom c = Except.error (InvalidErrorCode.BadCode (c / 10))) ∧
    (c / 10 = 403 → 3 ≤ c % 10 →
      ErrorKind.tryFrom c = Except.error (InvalidErrorCode.BadCode c)) ∧
    ErrorKind.tryFrom 5000 = Except.error (InvalidErrorCode.BadCode 500) ∧
    ErrorKind.tryFrom 4035 = Except.error (InvalidErrorCode.BadCode 4035) := by
  refine ⟨fun h => ErrorKind.tryFrom_eq_badFamily c h, fun h1 h2 => ?_, rfl, rfl⟩
  rw [ErrorKind.tryFrom_eq_403 c h1, Forbidden.tryFrom_err_high c h1 h2]
  rfl

/-- C10 witness: both error-payload rules applied at concrete codes 5000
and 4035. -/
theorem C10_badcode_payload_witness :
    ErrorKind.tryFrom 5000 =
      Except.error (InvalidErrorCode.BadCode (5000 / 10)) ∧
    ErrorKind.tryFrom 4035 = Except.error (InvalidErrorCode.BadCode 4035) :=
  ⟨(C10_badcode_payload 5000 (by norm_num)).1 (by decide),
    (C10_badcode_payload 4035 (by norm_num)).2.1 (by decide) (by decide)⟩
